import Mathlib

/-!
Verification development for the letsplay backend.

Shallow embedding of the user-registration pipeline
(`src/backend/src/controllers/user.controller.js`), the Cloudinary upload
helper (`cloudinary.js`, the CommonJS copy whose `module.exports` the
CommonJS backend loads), the Mongoose user model (`user.model.js`), and the
`ApiResponse` / `apiError` wrapper classes as documented in
`backend/notes.md` and `PROJECT_DOCUMENTATION.md`.

Conventions of the embedding:
- JavaScript values that may be `undefined` are `Option` values.
- External collaborators are oracles passed as parameters: `remote` models
  `cloudinary.uploader.upload` (`some` = resolved response, `none` =
  rejected promise), `bhash` models `bcrypt.hash`, `bcompare` models
  `bcrypt.compare`.
- The local temp-file system is a list of existing file paths.
- The document store is a list of user records; `_id` values are `Nat`.
- `jsTrim` / `jsToLower` model JavaScript `String.prototype.trim` /
  `toLowerCase` (and the identical Mongoose `trim` / `lowercase` setters),
  restricted to the character predicates Lean provides.
- Mongoose metadata fields (`createdAt`, `updatedAt`, `__v`) are omitted:
  no statement here mentions them.
-/

/-- Model of JavaScript `String.prototype.trim` (and the Mongoose `trim`
schema setter): strip leading and trailing whitespace. -/
def jsTrim (s : String) : String :=
  String.mk (((s.data.dropWhile Char.isWhitespace).reverse.dropWhile
    Char.isWhitespace).reverse)

/-- Model of JavaScript `String.prototype.toLowerCase` (and the Mongoose
`lowercase` schema setter). -/
def jsToLower (s : String) : String :=
  String.mk (s.data.map Char.toLower)

/-- The response object resolved by `cloudinary.uploader.upload`; the code
only consumes its `url` field, so the remaining metadata is not modelled. -/
structure CloudResp where
  url : String
deriving DecidableEq, Repr

/-- `uploadOnCloudinary(localFilePath)` from `cloudinary.js` (the CommonJS
copy).  `remote` is the `cloudinary.uploader.upload` collaborator and `fs`
the set of existing local files.  Mirrors the source:
- `if (!localFilePath) return null` (undefined or empty string is falsy);
- on a resolved upload, `fs.unlinkSync(localFilePath)` then
  `return response`; if the file is already gone `unlinkSync` throws, the
  `catch` block sees `existsSync` false and returns `null`;
- on a rejected upload the `catch` block deletes the file when it exists and
  returns `null`.
Returns the result together with the file system after the call. -/
def uploadOnCloudinary (remote : String → Option CloudResp)
    (fs : List String) (localFilePath : Option String) :
    Option CloudResp × List String :=
  match localFilePath with
  | none => (none, fs)
  | some p =>
    if p == "" then (none, fs)
    else
      match remote p with
      | some response =>
        if fs.contains p then (some response, fs.erase p)
        else (none, fs)
      | none =>
        if fs.contains p then (none, fs.erase p)
        else (none, fs)

/-- A persisted user record, following the fields of `userSchema` in
`user.model.js`.  `refreshTokens` is the schema's optional refresh-token
field: `none` when the document has no such key. -/
structure StoredUser where
  id : Nat
  username : String
  fullName : String
  email : String
  password : String
  avatar : String
  coverImage : String
  watchHistory : List Nat
  refreshTokens : Option String
deriving DecidableEq, Repr

/-- `req.body` of the registration request: each of the four text fields may
be absent (`undefined`). -/
structure ReqBody where
  username : Option String
  email : Option String
  password : Option String
  fullName : Option String
deriving DecidableEq, Repr

/-- The Multer upload payload: `req.files?.avatar?.[0]?.path` and
`req.files?.coverImages?.[0]?.path`. -/
structure ReqFiles where
  avatar : Option String
  coverImages : Option String
deriving DecidableEq, Repr

/-- One step of the controller's validation predicate
`(field) => field?.trim() === ""`: an absent field short-circuits to
`undefined`, which is not `=== ""`. -/
def fieldTrimEmpty (field : Option String) : Bool :=
  match field with
  | some s => jsTrim s == ""
  | none => false

/-- `[fullName, email, password, username].some((field) => field?.trim() === "")`
from the controller. -/
def hasEmptyRequiredField (body : ReqBody) : Bool :=
  [body.fullName, body.email, body.password, body.username].any fieldTrimEmpty

/-- `User.findOne({ $or: [{ email }, { username }] })`: the first stored user
whose email or username equals the corresponding request value.  An absent
request value matches no record. -/
def findExistedUser (db : List StoredUser) (email username : Option String) :
    Option StoredUser :=
  db.find? (fun u => email == some u.email || username == some u.username)

/-- Document construction inside `User.create`: the Mongoose string setters
of `userSchema` are applied to the incoming values (`trim` + `lowercase` on
`username`, `trim` on `fullName`, `trim` + `lowercase` on `email`; no setter
on `password`, `avatar`, `coverImage`).  `watchHistory` starts empty and no
`refreshTokens` value is set. -/
def castUser (id : Nat) (fullName email username password avatar
    coverImage : String) : StoredUser :=
  { id := id
    username := jsToLower (jsTrim username)
    fullName := jsTrim fullName
    email := jsToLower (jsTrim email)
    password := password
    avatar := avatar
    coverImage := coverImage
    watchHistory := []
    refreshTokens := none }

/-- The `userSchema.pre('save', ...)` hook: when the password path is
modified, replace it by `bcrypt.hash(this.password, 10)`; otherwise leave the
record untouched. -/
def preSaveHook (bhash : String → Nat → String) (passwordModified : Bool)
    (u : StoredUser) : StoredUser :=
  if passwordModified then { u with password := bhash u.password 10 } else u

/-- `userSchema.methods.isPasswordCorrect`: `bcrypt.compare(password, this.password)`. -/
def isPasswordCorrect (bcompare : String → String → Bool) (u : StoredUser)
    (password : String) : Bool :=
  bcompare password u.password

/-- `coverImages?.url || ""` from the controller: an absent upload result, or
an empty `url`, degrades to the empty string. -/
def covResolve (coverImages : Option CloudResp) : String :=
  match coverImages with
  | some r => if r.url == "" then "" else r.url
  | none => ""

/-- A field value inside a serialized Mongoose document. -/
inductive FieldVal where
  | str (s : String)
  | oid (n : Nat)
  | oidList (l : List Nat)
deriving DecidableEq, Repr

/-- Serialization of a stored user document: `_id` followed by the schema
fields in declaration order.  The optional `refreshTokens` key is present
only when the record carries a value for it. -/
def userToDoc (u : StoredUser) : List (String × FieldVal) :=
  [("_id", FieldVal.oid u.id),
   ("username", FieldVal.str u.username),
   ("fullName", FieldVal.str u.fullName),
   ("password", FieldVal.str u.password),
   ("email", FieldVal.str u.email),
   ("avatar", FieldVal.str u.avatar),
   ("coverImage", FieldVal.str u.coverImage),
   ("watchHistory", FieldVal.oidList u.watchHistory)] ++
  (match u.refreshTokens with
   | some t => [("refreshTokens", FieldVal.str t)]
   | none => [])

/-- Split a character list into space-separated words. -/
def splitOnSpacesAux : List Char → List Char → List (List Char)
  | [], acc => if acc.isEmpty then [] else [acc.reverse]
  | c :: rest, acc =>
    if c == ' ' then
      if acc.isEmpty then splitOnSpacesAux rest []
      else acc.reverse :: splitOnSpacesAux rest []
    else splitOnSpacesAux rest (c :: acc)

/-- Mongoose parsing of a `.select(...)` string: whitespace-separated terms,
a leading `-` marking exclusion.  The controller only uses an all-exclusion
select, so the result is the list of excluded field names. -/
def parseSelect (sel : String) : List String :=
  (splitOnSpacesAux sel.data []).map
    (fun w => String.mk (match w with
      | '-' :: r => r
      | other => other))

/-- Apply an exclusion-style `.select(sel)` projection to a serialized
document: drop every key named by the select string. -/
def applySelect (doc : List (String × FieldVal)) (sel : String) :
    List (String × FieldVal) :=
  doc.filter (fun kv => !((parseSelect sel).contains kv.1))

/-- The `apiError` class (per `notes.md` / `PROJECT_DOCUMENTATION.md`): a
thrown error carrying an HTTP status code, a message and an optional
sub-error list.  The captured stack trace is not modelled. -/
structure apiError where
  statusCode : Nat
  message : String
  errors : List String
deriving DecidableEq, Repr

/-- A payload slot of the `ApiResponse` envelope as used by this controller:
either a plain string or a serialized user document. -/
inductive RespPayload where
  | str (s : String)
  | user (d : List (String × FieldVal))
deriving DecidableEq, Repr

/-- The `ApiResponse` class, per its implementation in `notes.md` and
`PROJECT_DOCUMENTATION.md`: `constructor(statusCode, message, data)` with
`success = statusCode >= 200 && statusCode < 300`. -/
structure ApiResponse where
  statusCode : Nat
  message : RespPayload
  data : RespPayload
  success : Bool
deriving DecidableEq, Repr

/-- `new ApiResponse(statusCode, message, data)`: the constructor assigns the
first argument after the status code to `message` and the next to `data`. -/
def mkApiResponse (statusCode : Nat) (message data : RespPayload) :
    ApiResponse :=
  { statusCode := statusCode
    message := message
    data := data
    success := decide (200 ≤ statusCode ∧ statusCode < 300) }

/-- How a registration request terminates: a thrown `apiError`, a plain
JavaScript runtime error (surfacing through `asyncHandler` as a generic
failure), or `res.status(...).json(new ApiResponse(...))`. -/
inductive Outcome where
  | err (e : apiError)
  | jsError (msg : String)
  | ok (httpStatus : Nat) (body : ApiResponse)
deriving DecidableEq, Repr

/-- Repository / upload side effects performed by a run, in order. -/
inductive Eff where
  | findOne
  | upload (path : Option String)
  | create
  | findById (id : Nat)
deriving DecidableEq, Repr

/-- Result of a registration run: terminal outcome, final document store,
final local file system, and the repository/upload calls made. -/
structure RegResult where
  outcome : Outcome
  db : List StoredUser
  fs : List String
  effects : List Eff
deriving DecidableEq, Repr

/-- The `registerUser` controller.  Stages, in source order:
1. validation of the four text fields;
2. `User.findOne({ $or: [...] })` duplicate check, `409` on a hit;
3. `avatarLocalPath` presence check (`!avatarLocalPath`), `400` if falsy;
4. `uploadOnCloudinary` for avatar then cover image, `400` when the avatar
   upload yields `null`;
5. `User.create({...})`: evaluating `username.toLowerCase()` on an absent
   username raises a TypeError before the call; a missing required field
   makes Mongoose reject the create; otherwise the schema setters and the
   pre-save password hook run and the record is appended with a fresh id;
6. `User.findById(newUser._id).select("-password -refreshToken ")` and the
   `500` guard;
7. `res.status(201).json(new ApiResponse(201, createdUser, "User created successfully"))`. -/
def registerUser (bhash : String → Nat → String)
    (remote : String → Option CloudResp) (db : List StoredUser)
    (fs : List String) (body : ReqBody) (files : ReqFiles) : RegResult :=
  if hasEmptyRequiredField body then
    { outcome := Outcome.err ⟨400, "All fields are required", []⟩
      db := db, fs := fs, effects := [] }
  else
    match findExistedUser db body.email body.username with
    | some _ =>
      { outcome := Outcome.err ⟨409, "User already exists", []⟩
        db := db, fs := fs, effects := [Eff.findOne] }
    | none =>
      let avatarLocalPath := files.avatar
      let coverImagesLocalPath := files.coverImages
      if avatarLocalPath.getD "" == "" then
        { outcome := Outcome.err ⟨400, "Avatar is required", []⟩
          db := db, fs := fs, effects := [Eff.findOne] }
      else
        let up1 := uploadOnCloudinary remote fs avatarLocalPath
        let up2 := uploadOnCloudinary remote up1.2 coverImagesLocalPath
        let effs := [Eff.findOne, Eff.upload avatarLocalPath,
                     Eff.upload coverImagesLocalPath]
        match up1.1 with
        | none =>
          { outcome := Outcome.err ⟨400, "Avatar upload failed", []⟩
            db := db, fs := up2.2, effects := effs }
        | some avatar =>
          match body.username with
          | none =>
            { outcome := Outcome.jsError
                "TypeError: cannot read toLowerCase of undefined"
              db := db, fs := up2.2, effects := effs }
          | some un =>
            match body.fullName, body.email, body.password with
            | some fn, some em, some pw =>
              let newUser := castUser db.length fn em (jsToLower un) pw
                avatar.url (covResolve up2.1)
              let db2 := db ++ [preSaveHook bhash true newUser]
              match db2.find? (fun u => u.id == newUser.id) with
              | some createdUser =>
                { outcome := Outcome.ok 201 (mkApiResponse 201
                    (RespPayload.user (applySelect (userToDoc createdUser)
                      "-password -refreshToken "))
                    (RespPayload.str "User created successfully"))
                  db := db2, fs := up2.2
                  effects := effs ++ [Eff.create, Eff.findById newUser.id] }
              | none =>
                { outcome := Outcome.err ⟨500, "User creation failed", []⟩
                  db := db2, fs := up2.2
                  effects := effs ++ [Eff.create, Eff.findById newUser.id] }
            | _, _, _ =>
              { outcome := Outcome.jsError
                  "ValidationError: required field missing"
                db := db, fs := up2.2, effects := effs ++ [Eff.create] }

/-! ### Concrete fixtures used by witnesses and counterexamples -/

/-- A concrete stand-in for `bcrypt.hash`: prefixes the bcrypt header.  Only
its contract properties (hashes differ from their plaintext, and
`bcompareEx` recognises them) matter to the statements below. -/
def bhashEx : String → Nat → String := fun p _ => "$2b$10$" ++ p

/-- A concrete stand-in for `bcrypt.compare`, matching `bhashEx`. -/
def bcompareEx : String → String → Bool := fun p h => h == "$2b$10$" ++ p

/-- A concrete remote-upload collaborator: resolves for the two temp paths
below and rejects everything else. -/
def remoteEx : String → Option CloudResp := fun p =>
  if p == "tmp/avatar.png" then some ⟨"http://cdn/avatar.png"⟩
  else if p == "tmp/cover.png" then some ⟨"http://cdn/cover.png"⟩
  else none

/-- A concrete local file system holding the two Multer temp files. -/
def fsEx : List String := ["tmp/avatar.png", "tmp/cover.png"]

/-- A fully valid registration body. -/
def bodyEx : ReqBody :=
  { username := some "alice", email := some "a@x.com",
    password := some "secret", fullName := some "Alice A" }

/-- Multer payload with both an avatar and a cover image. -/
def filesEx : ReqFiles :=
  { avatar := some "tmp/avatar.png", coverImages := some "tmp/cover.png" }

/-- Multer payload with an avatar but no cover image. -/
def filesNoCover : ReqFiles :=
  { avatar := some "tmp/avatar.png", coverImages := none }

/-- Multer payload with no files at all. -/
def filesNone : ReqFiles := { avatar := none, coverImages := none }

/-- An already stored user sharing `bodyEx`'s email. -/
def uEx : StoredUser :=
  { id := 0, username := "bob", fullName := "Bob B", email := "a@x.com",
    password := "$2b$10$pw", avatar := "http://cdn/bob.png", coverImage := "",
    watchHistory := [], refreshTokens := none }

/-- A one-user document store containing `uEx`. -/
def dbEx : List StoredUser := [uEx]

/-- A registration body whose email collides with `uEx` but whose full name
is blank. -/
def bodyBlankFullName : ReqBody :=
  { username := some "carol", email := some "a@x.com",
    password := some "secret", fullName := some "" }

/-- A registration body with a whitespace-only email. -/
def bodyBlankEmail : ReqBody :=
  { username := some "alice", email := some "   ",
    password := some "secret", fullName := some "Alice A" }

/-- A registration body with the username entirely absent and the other
fields valid. -/
def bodyNoUsername : ReqBody :=
  { username := none, email := some "a@x.com",
    password := some "secret", fullName := some "Alice A" }

/-- A valid registration body whose email contains upper-case letters. -/
def bodyUpperEmail : ReqBody :=
  { username := some "alice", email := some "A@X.com",
    password := some "secret", fullName := some "Alice A" }

/-! ### Helper lemmas -/

theorem fieldTrimEmpty_eq_true_iff (o : Option String) :
    fieldTrimEmpty o = true ↔ ∃ s, o = some s ∧ jsTrim s = "" := by
  cases o <;> simp [fieldTrimEmpty]

theorem hasEmptyRequiredField_iff (body : ReqBody) :
    hasEmptyRequiredField body = true ↔
      ∃ s, jsTrim s = "" ∧ (body.fullName = some s ∨ body.email = some s ∨
        body.password = some s ∨ body.username = some s) := by
  simp only [hasEmptyRequiredField, List.any_cons, List.any_nil,
    Bool.or_eq_true, fieldTrimEmpty_eq_true_iff]
  constructor
  · rintro (⟨s, hs, ht⟩ | ⟨s, hs, ht⟩ | ⟨s, hs, ht⟩ | ⟨s, hs, ht⟩ | h)
    · exact ⟨s, ht, Or.inl hs⟩
    · exact ⟨s, ht, Or.inr (Or.inl hs)⟩
    · exact ⟨s, ht, Or.inr (Or.inr (Or.inl hs))⟩
    · exact ⟨s, ht, Or.inr (Or.inr (Or.inr hs))⟩
    · exact absurd h (by simp)
  · rintro ⟨s, ht, h | h | h | h⟩
    · exact Or.inl ⟨s, h, ht⟩
    · exact Or.inr (Or.inl ⟨s, h, ht⟩)
    · exact Or.inr (Or.inr (Or.inl ⟨s, h, ht⟩))
    · exact Or.inr (Or.inr (Or.inr (Or.inl ⟨s, h, ht⟩)))

theorem hasEmptyRequiredField_false_of {body : ReqBody} {fn em pw un : String}
    (hfn : body.fullName = some fn) (hem : body.email = some em)
    (hpw : body.password = some pw) (hun : body.username = some un)
    (htfn : jsTrim fn ≠ "") (htem : jsTrim em ≠ "")
    (htpw : jsTrim pw ≠ "") (htun : jsTrim un ≠ "") :
    hasEmptyRequiredField body = false := by
  simp [hasEmptyRequiredField, fieldTrimEmpty, hfn, hem, hpw, hun, htfn,
    htem, htpw, htun]

@[simp] theorem castUser_id (i : Nat) (fn em un pw av cv : String) :
    (castUser i fn em un pw av cv).id = i := rfl

@[simp] theorem preSaveHook_id (bhash : String → Nat → String) (m : Bool)
    (u : StoredUser) : (preSaveHook bhash m u).id = u.id := by
  cases m <;> rfl

/-- The run of `registerUser` on the success path, as one equation: all four
text fields present and non-blank after trimming, no duplicate, an avatar
path, a successful avatar upload, and fresh-id consistency of the store. -/
theorem registerUser_success_run {bhash : String → Nat → String}
    {remote : String → Option CloudResp} {db : List StoredUser}
    {fs fs1 : List String} {body : ReqBody} {files : ReqFiles}
    {fn em pw un p : String} {r : CloudResp}
    (hfn : body.fullName = some fn) (hem : body.email = some em)
    (hpw : body.password = some pw) (hun : body.username = some un)
    (hval : hasEmptyRequiredField body = false)
    (hdup : findExistedUser db body.email body.username = none)
    (hav : files.avatar = some p) (hp : (p == "") = false)
    (hupav : uploadOnCloudinary remote fs (some p) = (some r, fs1))
    (hids : ∀ u ∈ db, u.id ≠ db.length) :
    registerUser bhash remote db fs body files =
      { outcome := Outcome.ok 201 (mkApiResponse 201
          (RespPayload.user (applySelect (userToDoc (preSaveHook bhash true
            (castUser db.length fn em (jsToLower un) pw r.url
              (covResolve (uploadOnCloudinary remote fs1
                files.coverImages).1))))
            "-password -refreshToken "))
          (RespPayload.str "User created successfully"))
        db := db ++ [preSaveHook bhash true (castUser db.length fn em
          (jsToLower un) pw r.url
          (covResolve (uploadOnCloudinary remote fs1 files.coverImages).1))]
        fs := (uploadOnCloudinary remote fs1 files.coverImages).2
        effects := [Eff.findOne, Eff.upload (some p),
          Eff.upload files.coverImages, Eff.create,
          Eff.findById db.length] } := by
  have hdup2 : findExistedUser db (some em) (some un) = none := by
    rw [← hem, ← hun]; exact hdup
  have hnone : List.find? (fun u => u.id == db.length) db = none := by
    rw [List.find?_eq_none]
    intro u hu
    simp [hids u hu]
  simp [registerUser, hval, hdup2, hav, hp, hupav, hfn, hem, hpw, hun, hnone]

/-- Once field validation passes, every further path of the pipeline has run
the duplicate query, and none of them throws the field-validation error. -/
theorem registerUser_past_validation {bhash : String → Nat → String}
    {remote : String → Option CloudResp} {db : List StoredUser}
    {fs : List String} {body : ReqBody} {files : ReqFiles}
    (hval : hasEmptyRequiredField body = false) :
    Eff.findOne ∈ (registerUser bhash remote db fs body files).effects ∧
    (registerUser bhash remote db fs body files).outcome ≠
      Outcome.err ⟨400, "All fields are required", []⟩ := by
  simp only [registerUser, hval, Bool.false_eq_true, if_false]
  repeat' split
  all_goals simp

/-! ### Claim theorems -/

/-- C3: a registration request in which one of the four required fields is
present but blank or whitespace-only (its trimmed value is empty) makes the
pipeline throw the validation error with HTTP status 400, before any
repository or upload call: the store and file system are untouched and the
effect log is empty. -/
theorem C3_blank_field_400_before_any_call
    (bhash : String → Nat → String) (remote : String → Option CloudResp)
    (db : List StoredUser) (fs : List String) (body : ReqBody)
    (files : ReqFiles)
    (h : ∃ s, jsTrim s = "" ∧ (body.fullName = some s ∨ body.email = some s ∨
      body.password = some s ∨ body.username = some s)) :
    registerUser bhash remote db fs body files =
      { outcome := Outcome.err ⟨400, "All fields are required", []⟩
        db := db, fs := fs, effects := [] } := by
  have hval : hasEmptyRequiredField body = true :=
    (hasEmptyRequiredField_iff body).2 h
  simp [registerUser, hval]

/-- Witness for C3: a whitespace-only email is rejected with the 400
validation error and no effects. -/
theorem C3_blank_field_400_before_any_call_witness :
    registerUser bhashEx remoteEx [] fsEx bodyBlankEmail filesEx =
      { outcome := Outcome.err ⟨400, "All fields are required", []⟩
        db := [], fs := fsEx, effects := [] } :=
  C3_blank_field_400_before_any_call bhashEx remoteEx [] fsEx bodyBlankEmail
    filesEx ⟨"   ", by decide, Or.inr (Or.inl rfl)⟩

/-- C10: the field-presence validation throws if and only if at least one
present field trims to the empty string; a request in which a required field
is entirely absent (and no present field is blank) proceeds past validation
to the later pipeline steps — the duplicate query runs and the outcome is
never the 400 field-validation error. -/
theorem C10_absent_field_passes_validation :
    (∀ body : ReqBody, hasEmptyRequiredField body = true ↔
      ∃ s, jsTrim s = "" ∧ (body.fullName = some s ∨ body.email = some s ∨
        body.password = some s ∨ body.username = some s)) ∧
    (∀ (bhash : String → Nat → String) (remote : String → Option CloudResp)
      (db : List StoredUser) (fs : List String) (body : ReqBody)
      (files : ReqFiles),
      (body.fullName = none ∨ body.email = none ∨ body.password = none ∨
        body.username = none) →
      (∀ s, (body.fullName = some s ∨ body.email = some s ∨
        body.password = some s ∨ body.username = some s) → jsTrim s ≠ "") →
      Eff.findOne ∈ (registerUser bhash remote db fs body files).effects ∧
      (registerUser bhash remote db fs body files).outcome ≠
        Outcome.err ⟨400, "All fields are required", []⟩) := by
  refine ⟨hasEmptyRequiredField_iff, ?_⟩
  intro bhash remote db fs body files _ hnb
  have hval : hasEmptyRequiredField body = false := by
    cases hv : hasEmptyRequiredField body with
    | false => rfl
    | true =>
      obtain ⟨s, ht, hd⟩ := (hasEmptyRequiredField_iff body).1 hv
      exact absurd ht (hnb s hd)
  exact registerUser_past_validation hval

/-- Witness for C10: a request with no username at all, other fields valid,
reaches the duplicate query and does not trigger the validation error. -/
theorem C10_absent_field_passes_validation_witness :
    Eff.findOne ∈
      (registerUser bhashEx remoteEx [] fsEx bodyNoUsername filesEx).effects ∧
    (registerUser bhashEx remoteEx [] fsEx bodyNoUsername filesEx).outcome ≠
      Outcome.err ⟨400, "All fields are required", []⟩ :=
  C10_absent_field_passes_validation.2 bhashEx remoteEx [] fsEx bodyNoUsername
    filesEx (Or.inr (Or.inr (Or.inr rfl)))
    (fun s h => by
      rcases h with h | h | h | h
      · injection h with h2; subst h2; decide
      · injection h with h2; subst h2; decide
      · injection h with h2; subst h2; decide
      · exact Option.noConfusion h)

/-- Counterexample for C4 as stated: a request whose email matches the
stored user `uEx` but whose full name is blank is rejected by the earlier
field validation with status 400, not with the 409 conflict error. -/
theorem C4_counterexample :
    bodyBlankFullName.email = some uEx.email ∧ uEx ∈ dbEx ∧
    registerUser bhashEx remoteEx dbEx fsEx bodyBlankFullName filesEx =
      { outcome := Outcome.err ⟨400, "All fields are required", []⟩
        db := dbEx, fs := fsEx, effects := [] } ∧
    (registerUser bhashEx remoteEx dbEx fsEx bodyBlankFullName
      filesEx).outcome ≠ Outcome.err ⟨409, "User already exists", []⟩ := by
  decide

/-- C4 (amended): a registration request that passes field validation and
whose email or username matches an existing record is rejected with the one
conflict error (HTTP 409, message "User already exists") regardless of which
field collided, and nothing is persisted: the store is unchanged and the
only effect is the duplicate query. -/
theorem C4_conflict_409
    (bhash : String → Nat → String) (remote : String → Option CloudResp)
    (db : List StoredUser) (fs : List String) (body : ReqBody)
    (files : ReqFiles) (u : StoredUser)
    (hmem : u ∈ db)
    (hcol : body.email = some u.email ∨ body.username = some u.username)
    (hval : hasEmptyRequiredField body = false) :
    registerUser bhash remote db fs body files =
      { outcome := Outcome.err ⟨409, "User already exists", []⟩
        db := db, fs := fs, effects := [Eff.findOne] } := by
  have hfound : ∃ v, findExistedUser db body.email body.username = some v := by
    cases hfe : findExistedUser db body.email body.username with
    | some v => exact ⟨v, rfl⟩
    | none =>
      rw [findExistedUser, List.find?_eq_none] at hfe
      have hu := hfe u hmem
      rcases hcol with h | h <;> simp [h] at hu
  obtain ⟨v, hv⟩ := hfound
  simp [registerUser, hval, hv]

/-- Witness for C4: registering `bodyEx`, whose email equals `uEx`'s, against
the store `dbEx` produces exactly the 409 conflict and no persistence. -/
theorem C4_conflict_409_witness :
    registerUser bhashEx remoteEx dbEx fsEx bodyEx filesEx =
      { outcome := Outcome.err ⟨409, "User already exists", []⟩
        db := dbEx, fs := fsEx, effects := [Eff.findOne] } :=
  C4_conflict_409 bhashEx remoteEx dbEx fsEx bodyEx filesEx uEx (by decide)
    (Or.inl rfl) (by decide)

/-- Counterexample for C5 as stated: a request with no avatar file whose
email collides with the stored user is rejected by the earlier duplication
check with status 409, not with a 400 validation error. -/
theorem C5_counterexample :
    filesNone.avatar = none ∧ hasEmptyRequiredField bodyEx = false ∧
    bodyEx.email = some uEx.email ∧ uEx ∈ dbEx ∧
    registerUser bhashEx remoteEx dbEx fsEx bodyEx filesNone =
      { outcome := Outcome.err ⟨409, "User already exists", []⟩
        db := dbEx, fs := fsEx, effects := [Eff.findOne] } ∧
    (409 : Nat) ≠ 400 := by
  decide

/-- C5 (amended): provided the request's email and username do not collide
with an existing record, a registration whose upload payload carries no
avatar path (absent or empty, i.e. falsy) throws a validation error with
HTTP 400 — specifically "Avatar is required" whenever the four text fields
pass validation — while the absence of a cover-image file never by itself
causes an error: with everything else in order and no cover image, the
pipeline still returns HTTP 201. -/
theorem C5_missing_avatar_400
    (bhash : String → Nat → String) (remote : String → Option CloudResp)
    (db : List StoredUser) (fs : List String) (body : ReqBody)
    (files : ReqFiles)
    (hdup : findExistedUser db body.email body.username = none) :
    (files.avatar.getD "" = "" →
      ((registerUser bhash remote db fs body files).outcome =
          Outcome.err ⟨400, "All fields are required", []⟩ ∨
        (registerUser bhash remote db fs body files).outcome =
          Outcome.err ⟨400, "Avatar is required", []⟩) ∧
      (hasEmptyRequiredField body = false →
        registerUser bhash remote db fs body files =
          { outcome := Outcome.err ⟨400, "Avatar is required", []⟩
            db := db, fs := fs, effects := [Eff.findOne] })) ∧
    (∀ fn em pw un p r,
      body.fullName = some fn → body.email = some em →
      body.password = some pw → body.username = some un →
      jsTrim fn ≠ "" → jsTrim em ≠ "" → jsTrim pw ≠ "" → jsTrim un ≠ "" →
      files.avatar = some p → (p == "") = false →
      remote p = some r → fs.contains p = true →
      files.coverImages = none →
      (∀ u ∈ db, u.id ≠ db.length) →
      ∃ resp, (registerUser bhash remote db fs body files).outcome =
        Outcome.ok 201 resp) := by
  constructor
  · intro hfalsy
    cases hv : hasEmptyRequiredField body with
    | true =>
      refine ⟨Or.inl (by simp [registerUser, hv]), ?_⟩
      intro hfalse
      exact absurd hfalse (by simp)
    | false =>
      have hb : (files.avatar.getD "" == "") = true := by simp [hfalsy]
      exact ⟨Or.inr (by simp [registerUser, hv, hdup, hb]),
        fun _ => by simp [registerUser, hv, hdup, hb]⟩
  · intro fn em pw un p r hfn hem hpw hun htfn htem htpw htun hav hp hrem
      hmem hcov hids
    have hval := hasEmptyRequiredField_false_of hfn hem hpw hun htfn htem
      htpw htun
    have hmem2 : p ∈ fs := by simpa using hmem
    have hupav : uploadOnCloudinary remote fs (some p) =
        (some r, fs.erase p) := by
      simp [uploadOnCloudinary, hp, hrem, hmem2]
    have hrun := @registerUser_success_run bhash remote db fs (fs.erase p)
      body files fn em pw un p r hfn hem hpw hun hval hdup hav hp hupav hids
    simp only [hrun]
    exact ⟨_, rfl⟩

/-- Witness for C5: with an empty store, registering `bodyEx` without any
files yields the 400 avatar error, while registering it with an avatar but
no cover image yields HTTP 201. -/
theorem C5_missing_avatar_400_witness :
    registerUser bhashEx remoteEx [] fsEx bodyEx filesNone =
      { outcome := Outcome.err ⟨400, "Avatar is required", []⟩
        db := [], fs := fsEx, effects := [Eff.findOne] } ∧
    ∃ resp, (registerUser bhashEx remoteEx [] fsEx bodyEx
      filesNoCover).outcome = Outcome.ok 201 resp :=
  ⟨((C5_missing_avatar_400 bhashEx remoteEx [] fsEx bodyEx filesNone
      rfl).1 rfl).2 (by decide),
   (C5_missing_avatar_400 bhashEx remoteEx [] fsEx bodyEx filesNoCover
      rfl).2 "Alice A" "a@x.com" "secret" "alice" "tmp/avatar.png"
      ⟨"http://cdn/avatar.png"⟩ rfl rfl rfl rfl (by decide) (by decide)
      (by decide) (by decide) rfl (by decide) (by decide) (by decide) rfl
      (by simp)⟩

/-- C6: when the pipeline reaches the uploads (fields valid, no duplicate,
avatar path present) and the avatar upload returns null, it throws the
upload-failure error with HTTP 400 and persists nothing; and when the
avatar upload succeeds but the cover-image upload result is missing (null),
the persisted record's `coverImage` field is the empty string and the
registration still completes with HTTP 201. -/
theorem C6_avatar_upload_failure_cover_optional
    (bhash : String → Nat → String) (remote : String → Option CloudResp)
    (db : List StoredUser) (fs : List String) (body : ReqBody)
    (files : ReqFiles) (p : String)
    (hval : hasEmptyRequiredField body = false)
    (hdup : findExistedUser db body.email body.username = none)
    (hav : files.avatar = some p) (hp : (p == "") = false) :
    ((uploadOnCloudinary remote fs (some p)).1 = none →
      (registerUser bhash remote db fs body files).outcome =
        Outcome.err ⟨400, "Avatar upload failed", []⟩ ∧
      (registerUser bhash remote db fs body files).db = db ∧
      Eff.create ∉ (registerUser bhash remote db fs body files).effects) ∧
    (∀ fn em pw un r fs1,
      body.fullName = some fn → body.email = some em →
      body.password = some pw → body.username = some un →
      uploadOnCloudinary remote fs (some p) = (some r, fs1) →
      (uploadOnCloudinary remote fs1 files.coverImages).1 = none →
      (∀ u ∈ db, u.id ≠ db.length) →
      ∃ u, (registerUser bhash remote db fs body files).db =
          db ++ [preSaveHook bhash true u] ∧
        u.coverImage = "" ∧
        ∃ resp, (registerUser bhash remote db fs body files).outcome =
          Outcome.ok 201 resp) := by
  constructor
  · intro hfail
    simp [registerUser, hval, hdup, hav, hp, hfail]
  · intro fn em pw un r fs1 hfn hem hpw hun hupav hcov hids
    have hrun := @registerUser_success_run bhash remote db fs fs1 body files
      fn em pw un p r hfn hem hpw hun hval hdup hav hp hupav hids
    refine ⟨castUser db.length fn em (jsToLower un) pw r.url
      (covResolve (uploadOnCloudinary remote fs1 files.coverImages).1),
      ?_, ?_, ?_⟩
    · rw [hrun]
    · simp [castUser, covResolve, hcov]
    · simp only [hrun]
      exact ⟨_, rfl⟩

/-- Witness for C6: a request whose avatar temp file is missing from disk
makes the upload return null and registration fail with the 400 upload
error; with the avatar present and no cover image the user is persisted
with an empty `coverImage` and HTTP 201. -/
theorem C6_avatar_upload_failure_cover_optional_witness :
    ((registerUser bhashEx remoteEx [] ["tmp/cover.png"] bodyEx
        filesEx).outcome =
      Outcome.err ⟨400, "Avatar upload failed", []⟩ ∧
      (registerUser bhashEx remoteEx [] ["tmp/cover.png"] bodyEx
        filesEx).db = [] ∧
      Eff.create ∉ (registerUser bhashEx remoteEx [] ["tmp/cover.png"]
        bodyEx filesEx).effects) ∧
    ∃ u, (registerUser bhashEx remoteEx [] fsEx bodyEx filesNoCover).db =
        [] ++ [preSaveHook bhashEx true u] ∧
      u.coverImage = "" ∧
      ∃ resp, (registerUser bhashEx remoteEx [] fsEx bodyEx
        filesNoCover).outcome = Outcome.ok 201 resp :=
  ⟨(C6_avatar_upload_failure_cover_optional bhashEx remoteEx []
      ["tmp/cover.png"] bodyEx filesEx "tmp/avatar.png" (by decide) rfl rfl
      (by decide)).1 (by decide),
   (C6_avatar_upload_failure_cover_optional bhashEx remoteEx [] fsEx bodyEx
      filesNoCover "tmp/avatar.png" (by decide) rfl rfl (by decide)).2
      "Alice A" "a@x.com" "secret" "alice" ⟨"http://cdn/avatar.png"⟩
      ["tmp/cover.png"] rfl rfl rfl rfl (by decide) (by decide) (by simp)⟩

/-- C1: every successful registration (valid non-blank fields, avatar path
present, avatar upload succeeding) returns HTTP 201 with a user object that
has neither a `password` key (excluded by the re-fetch projection) nor a
`refreshTokens` key (never set at creation). -/
theorem C1_response_lacks_password_and_refreshTokens
    (bhash : String → Nat → String) (remote : String → Option CloudResp)
    (db : List StoredUser) (fs fs1 : List String) (body : ReqBody)
    (files : ReqFiles) (fn em pw un p : String) (r : CloudResp)
    (hfn : body.fullName = some fn) (hem : body.email = some em)
    (hpw : body.password = some pw) (hun : body.username = some un)
    (htfn : jsTrim fn ≠ "") (htem : jsTrim em ≠ "")
    (htpw : jsTrim pw ≠ "") (htun : jsTrim un ≠ "")
    (hdup : findExistedUser db body.email body.username = none)
    (hav : files.avatar = some p) (hp : (p == "") = false)
    (hupav : uploadOnCloudinary remote fs (some p) = (some r, fs1))
    (hids : ∀ u ∈ db, u.id ≠ db.length) :
    ∃ d, (registerUser bhash remote db fs body files).outcome =
        Outcome.ok 201 (mkApiResponse 201 (RespPayload.user d)
          (RespPayload.str "User created successfully")) ∧
      d.lookup "password" = none ∧ d.lookup "refreshTokens" = none := by
  have hval := hasEmptyRequiredField_false_of hfn hem hpw hun htfn htem htpw
    htun
  have hrun := @registerUser_success_run bhash remote db fs fs1 body files
    fn em pw un p r hfn hem hpw hun hval hdup hav hp hupav hids
  refine ⟨applySelect (userToDoc (preSaveHook bhash true
    (castUser db.length fn em (jsToLower un) pw r.url
      (covResolve (uploadOnCloudinary remote fs1 files.coverImages).1))))
    "-password -refreshToken ", ?_, ?_, ?_⟩
  · rw [hrun]
  · rfl
  · rfl

/-- Witness for C1: the sanitized user document of a concrete successful
registration carries neither sensitive key. -/
theorem C1_response_lacks_password_and_refreshTokens_witness :
    ∃ d, (registerUser bhashEx remoteEx [] fsEx bodyEx filesEx).outcome =
        Outcome.ok 201 (mkApiResponse 201 (RespPayload.user d)
          (RespPayload.str "User created successfully")) ∧
      d.lookup "password" = none ∧ d.lookup "refreshTokens" = none :=
  C1_response_lacks_password_and_refreshTokens bhashEx remoteEx [] fsEx
    ["tmp/cover.png"] bodyEx filesEx "Alice A" "a@x.com" "secret" "alice"
    "tmp/avatar.png" ⟨"http://cdn/avatar.png"⟩ rfl rfl rfl rfl (by decide)
    (by decide) (by decide) (by decide) rfl rfl (by decide) (by decide)
    (by simp)

/-- C2 as run by the code: a concrete successful registration returns
HTTP 201 with `statusCode = 201` and `success = true` as claimed, but the
`ApiResponse` constructor `(statusCode, message, data)` combined with the
controller call `new ApiResponse(201, createdUser, "User created successfully")`
places the sanitized user under `message` and the success string under
`data`, so `data` does not wrap the user record. -/
theorem C2_envelope_message_data_swapped :
    (registerUser bhashEx remoteEx [] fsEx bodyEx filesEx).outcome =
      Outcome.ok 201
        { statusCode := 201
          message := RespPayload.user
            [("_id", FieldVal.oid 0), ("username", FieldVal.str "alice"),
             ("fullName", FieldVal.str "Alice A"),
             ("email", FieldVal.str "a@x.com"),
             ("avatar", FieldVal.str "http://cdn/avatar.png"),
             ("coverImage", FieldVal.str "http://cdn/cover.png"),
             ("watchHistory", FieldVal.oidList [])]
          data := RespPayload.str "User created successfully"
          success := true } ∧
    (∀ d, RespPayload.str "User created successfully" ≠ RespPayload.user d) :=
  ⟨by decide, fun d h => nomatch h⟩

/-- C7: the contract of `uploadOnCloudinary`: a null/absent input returns
null with no side effect; on remote failure it returns null and deletes the
local file at the given path when one exists; on success (which presupposes
the local file was readable) it deletes the local file and returns the
remote descriptor. -/
theorem C7_uploadOnCloudinary_contract (remote : String → Option CloudResp)
    (fs : List String) :
    uploadOnCloudinary remote fs none = (none, fs) ∧
    (∀ p, p ≠ "" → remote p = none →
      uploadOnCloudinary remote fs (some p) =
        (none, if fs.contains p then fs.erase p else fs)) ∧
    (∀ p r, p ≠ "" → remote p = some r → fs.contains p = true →
      uploadOnCloudinary remote fs (some p) = (some r, fs.erase p)) := by
  refine ⟨rfl, ?_, ?_⟩
  · intro p hp hrem
    by_cases hc : p ∈ fs
    · have hcb : fs.contains p = true := by simpa using hc
      simp [uploadOnCloudinary, hp, hrem, hc, hcb]
    · have hcb : fs.contains p = false := by simpa using hc
      simp [uploadOnCloudinary, hp, hrem, hc, hcb]
  · intro p r hp hrem hmem
    have hmem2 : p ∈ fs := by simpa using hmem
    simp [uploadOnCloudinary, hp, hrem, hmem2]

/-- Witness for C7: the contract evaluated against the concrete collaborator
`remoteEx` and file system `fsEx`. -/
theorem C7_uploadOnCloudinary_contract_witness :
    uploadOnCloudinary remoteEx fsEx none = (none, fsEx) ∧
    uploadOnCloudinary remoteEx fsEx (some "tmp/other.png") =
      (none, if fsEx.contains "tmp/other.png" then
        fsEx.erase "tmp/other.png" else fsEx) ∧
    uploadOnCloudinary remoteEx fsEx (some "tmp/avatar.png") =
      (some ⟨"http://cdn/avatar.png"⟩, fsEx.erase "tmp/avatar.png") :=
  ⟨(C7_uploadOnCloudinary_contract remoteEx fsEx).1,
   (C7_uploadOnCloudinary_contract remoteEx fsEx).2.1 "tmp/other.png"
     (by decide) (by decide),
   (C7_uploadOnCloudinary_contract remoteEx fsEx).2.2 "tmp/avatar.png"
     ⟨"http://cdn/avatar.png"⟩ (by decide) (by decide) (by decide)⟩

/-- C8: assuming the bcrypt contract (a cost-10 hash of a plaintext differs
from it, and `compare` recognises it), the pre-save hook replaces the
password with `bcrypt.hash(password, 10)` exactly when the password was
modified and otherwise leaves the record untouched; consequently the stored
password differs from the registration plaintext while
`isPasswordCorrect(plaintext)` returns true. -/
theorem C8_pre_save_hook_hashes_password
    (bhash : String → Nat → String) (bcompare : String → String → Bool)
    (hne : ∀ s, bhash s 10 ≠ s)
    (hcmp : ∀ s, bcompare s (bhash s 10) = true) (u : StoredUser) :
    preSaveHook bhash false u = u ∧
    (preSaveHook bhash true u).password = bhash u.password 10 ∧
    (preSaveHook bhash true u).password ≠ u.password ∧
    isPasswordCorrect bcompare (preSaveHook bhash true u) u.password =
      true := by
  exact ⟨rfl, rfl, hne u.password, hcmp u.password⟩

/-- The stand-in hash never equals its input: it is seven characters
longer. -/
theorem bhashEx_ne (s : String) : bhashEx s 10 ≠ s := by
  intro h
  have hl := congrArg String.length h
  rw [bhashEx] at hl
  simp [String.length_append] at hl
  exact absurd hl (by decide)

/-- The stand-in compare accepts the stand-in hash of the same plaintext. -/
theorem bcompareEx_hash (s : String) : bcompareEx s (bhashEx s 10) = true := by
  simp [bcompareEx, bhashEx]

/-- Witness for C8: the hook behaviour evaluated on the concrete record
`uEx` with the concrete bcrypt stand-in. -/
theorem C8_pre_save_hook_hashes_password_witness :
    preSaveHook bhashEx false uEx = uEx ∧
    (preSaveHook bhashEx true uEx).password = bhashEx uEx.password 10 ∧
    (preSaveHook bhashEx true uEx).password ≠ uEx.password ∧
    isPasswordCorrect bcompareEx (preSaveHook bhashEx true uEx)
      uEx.password = true :=
  C8_pre_save_hook_hashes_password bhashEx bcompareEx bhashEx_ne
    bcompareEx_hash uEx

/-- Counterexample for C9 as stated: registering with the email
`"A@X.com"` — already equal to its trimmed form — persists the record with
email `"a@x.com"`, because the schema's `lowercase` setter also applies; the
persisted record does not contain the trimmed email. -/
theorem C9_counterexample :
    jsTrim "A@X.com" = "A@X.com" ∧
    (registerUser bhashEx remoteEx [] fsEx bodyUpperEmail filesEx).db.map
      (fun u => u.email) = ["a@x.com"] ∧
    ("a@x.com" : String) ≠ "A@X.com" := by
  decide

/-- C9 (amended): every successful registration hands the repository a
record carrying the raw password (hashed only by the pre-save hook applied
at persistence), the trimmed full name, the trimmed and lowercased email,
the lowercased (and trimmed) username, and the avatar / cover-image URLs
resolved from the upload results. -/
theorem C9_persisted_record_fields
    (bhash : String → Nat → String) (remote : String → Option CloudResp)
    (db : List StoredUser) (fs fs1 : List String) (body : ReqBody)
    (files : ReqFiles) (fn em pw un p : String) (r : CloudResp)
    (hfn : body.fullName = some fn) (hem : body.email = some em)
    (hpw : body.password = some pw) (hun : body.username = some un)
    (htfn : jsTrim fn ≠ "") (htem : jsTrim em ≠ "")
    (htpw : jsTrim pw ≠ "") (htun : jsTrim un ≠ "")
    (hdup : findExistedUser db body.email body.username = none)
    (hav : files.avatar = some p) (hp : (p == "") = false)
    (hupav : uploadOnCloudinary remote fs (some p) = (some r, fs1))
    (hids : ∀ u ∈ db, u.id ≠ db.length) :
    ∃ u, (registerUser bhash remote db fs body files).db =
        db ++ [preSaveHook bhash true u] ∧
      u.password = pw ∧ u.fullName = jsTrim fn ∧
      u.email = jsToLower (jsTrim em) ∧
      u.username = jsToLower (jsTrim (jsToLower un)) ∧
      u.avatar = r.url ∧
      u.coverImage =
        covResolve (uploadOnCloudinary remote fs1 files.coverImages).1 := by
  have hval := hasEmptyRequiredField_false_of hfn hem hpw hun htfn htem htpw
    htun
  have hrun := @registerUser_success_run bhash remote db fs fs1 body files
    fn em pw un p r hfn hem hpw hun hval hdup hav hp hupav hids
  exact ⟨castUser db.length fn em (jsToLower un) pw r.url
    (covResolve (uploadOnCloudinary remote fs1 files.coverImages).1),
    by rw [hrun], rfl, rfl, rfl, rfl, rfl, rfl⟩

/-- Witness for C9 (amended): field-by-field content of the record persisted
by a concrete successful registration. -/
theorem C9_persisted_record_fields_witness :
    ∃ u, (registerUser bhashEx remoteEx [] fsEx bodyEx filesEx).db =
        [] ++ [preSaveHook bhashEx true u] ∧
      u.password = "secret" ∧ u.fullName = jsTrim "Alice A" ∧
      u.email = jsToLower (jsTrim "a@x.com") ∧
      u.username = jsToLower (jsTrim (jsToLower "alice")) ∧
      u.avatar = CloudResp.url ⟨"http://cdn/avatar.png"⟩ ∧
      u.coverImage = covResolve (uploadOnCloudinary remoteEx
        ["tmp/cover.png"] filesEx.coverImages).1 :=
  C9_persisted_record_fields bhashEx remoteEx [] fsEx ["tmp/cover.png"]
    bodyEx filesEx "Alice A" "a@x.com" "secret" "alice" "tmp/avatar.png"
    ⟨"http://cdn/avatar.png"⟩ rfl rfl rfl rfl (by decide) (by decide)
    (by decide) (by decide) rfl rfl (by decide) (by decide) (by simp)
